import Mathlib

/-!
Verification of the journal core of `journal-mcp` (src/journal.go).

Shallow embedding conventions:
* Go `time.Time` instants are modelled as `Int` minutes since the Unix epoch,
  via the standard civil-calendar day-count (`daysFromCivil`).  `time.Time`'s
  zero value (0001-01-01 00:00 UTC) is `zeroTime`.  `Before`/`After` become
  `<` on `Int`; `Add(24*time.Hour)` becomes `+ 1440`.
* The file-backed task store (`~/.journal-mcp/tasks/<id>.json`) is modelled as
  a `List Task`; `loadTask`/`saveTask` act by id.  File-I/O failures and the
  separate daily-log files are outside the model (no claim touches them).
* Go `strings` functions are modelled on `List Char` / `String`
  (`strContains`, `replaceFirst`, `trim`, `toLower`, `splitOn`).
* `time.Parse` for the fixed layouts used by the code is modelled by the
  whole-string parsers below, including Go's requirement that parsing
  consumes the entire input ("extra text" is an error) and its range
  validation of month/day/hour/minute.
* Go `float64` arithmetic in the analytics engine is modelled over `ℚ`.
-/

namespace Journal

/-! ### Time model -/

def isLeapYear (y : Int) : Bool :=
  y % 4 = 0 && (y % 100 ≠ 0 || y % 400 = 0)

def daysInMonth (y m : Int) : Int :=
  if m = 2 then (if isLeapYear y then 29 else 28)
  else if m = 4 || m = 6 || m = 9 || m = 11 then 30
  else 31

/-- Days from 1970-01-01 to civil date y-m-d (Howard Hinnant's algorithm,
    all intermediate divisions have non-negative operands). -/
def daysFromCivil (y m d : Int) : Int :=
  let yy := if m ≤ 2 then y - 1 else y
  let era := (if 0 ≤ yy then yy else yy - 399).tdiv 400
  let yoe := yy - era * 400
  let mp := (m + 9) % 12
  let doy := (153 * mp + 2).tdiv 5 + d - 1
  let doe := yoe * 365 + yoe.tdiv 4 - yoe.tdiv 100 + doy
  era * 146097 + doe - 719468

/-- An instant, in minutes since the Unix epoch. -/
def mkInstant (y m d hh mi : Int) : Int :=
  daysFromCivil y m d * 1440 + hh * 60 + mi

/-- Go's `time.Time{}` zero value: 0001-01-01 00:00. -/
def zeroTime : Int := mkInstant 1 1 1 0 0

/-! ### String helpers (Go `strings` package) -/

/-- The whitespace set of Go `strings.TrimSpace` (ASCII fragment). -/
def isSpaceChar (c : Char) : Bool :=
  c = ' ' || c = '\t' || c = '\n' || c = '\x0b' || c = '\x0c' || c = '\r'

/-- Go `strings.TrimSpace` (structural implementation on the char list). -/
def trimSpace (s : String) : String :=
  ⟨((s.data.dropWhile isSpaceChar).reverse.dropWhile isSpaceChar).reverse⟩

def splitCharAux (sep : Char) : List Char → List (List Char)
  | [] => [[]]
  | c :: cs =>
    if c = sep then [] :: splitCharAux sep cs
    else
      match splitCharAux sep cs with
      | f :: rest => (c :: f) :: rest
      | [] => [[c]]

/-- Go `strings.Split` with a one-character separator. -/
def splitOnChar (sep : Char) (s : String) : List String :=
  (splitCharAux sep s.data).map (fun cs => ⟨cs⟩)

def lowerChar (c : Char) : Char :=
  if 'A' ≤ c && c ≤ 'Z' then Char.ofNat (c.toNat + 32) else c

/-- Go `strings.ToLower` (ASCII fragment). -/
def lowerStr (s : String) : String := ⟨s.data.map lowerChar⟩

/-- Go `strings.Join` with a separator. -/
def joinWith (sep : String) : List String → String
  | [] => ""
  | [x] => x
  | x :: y :: xs => x ++ sep ++ joinWith sep (y :: xs)

def digitsToNatAux : List Char → Nat → Option Nat
  | [], acc => some acc
  | c :: cs, acc =>
    if '0' ≤ c && c ≤ '9' then digitsToNatAux cs (acc * 10 + (c.toNat - 48))
    else none

/-- At least one decimal digit, all digits. -/
def digitsToNat : List Char → Option Nat
  | [] => none
  | cs => digitsToNatAux cs 0

/-- Go `strconv.Atoi`: optional sign, then digits only (overflow aside). -/
def atoi (s : String) : Option Int :=
  match s.data with
  | '+' :: cs => (digitsToNat cs).map (fun n => (n : Int))
  | '-' :: cs => (digitsToNat cs).map (fun n => -(n : Int))
  | cs => (digitsToNat cs).map (fun n => (n : Int))

/-- `leadsWith pat l`: `pat` is a leading segment of `l`. -/
def leadsWith : List Char → List Char → Bool
  | [], _ => true
  | _ :: _, [] => false
  | a :: as, b :: bs => a = b && leadsWith as bs

def hasSub (hay needle : List Char) : Bool :=
  match hay with
  | [] => needle.isEmpty
  | _ :: rest => leadsWith needle hay || hasSub rest needle

/-- Go `strings.Contains s sub`. -/
def strContains (s sub : String) : Bool := hasSub s.data sub.data

/-- Go `strings.Replace(s, pat, "", 1)` (first occurrence removed). -/
def replaceFirstAux (pat : List Char) : List Char → List Char
  | [] => []
  | c :: rest =>
    if leadsWith pat (c :: rest) then (c :: rest).drop pat.length
    else c :: replaceFirstAux pat rest

def replaceFirst (s pat : String) : String := ⟨replaceFirstAux pat.data s.data⟩

/-- Go `strings.ReplaceAll(s, " ", "-")`. -/
def spacesToDashes (s : String) : String :=
  ⟨s.data.map (fun c => if c = ' ' then '-' else c)⟩

/-- Go `strings.Trim(s, "\"")`: strip leading/trailing double quotes. -/
def trimQuotes (s : String) : String :=
  ⟨((s.data.dropWhile (fun c => c = '"')).reverse.dropWhile (fun c => c = '"')).reverse⟩

/-! ### Date parsing (model of Go `time.Parse` for the layouts in the source) -/

structure DT where
  y : Int
  m : Int
  d : Int
  hh : Int
  mi : Int
deriving DecidableEq, Repr

def instantOfDT (t : DT) : Int := mkInstant t.y t.m t.d t.hh t.mi

def digitVal (c : Char) : Option Int :=
  if '0' ≤ c && c ≤ '9' then some ((c.toNat : Int) - 48) else none

def takeDigitsAux : Nat → Int → List Char → Option (Int × List Char)
  | 0, acc, cs => some (acc, cs)
  | n + 1, acc, c :: cs =>
    match digitVal c with
    | some v => takeDigitsAux n (acc * 10 + v) cs
    | none => none
  | _ + 1, _, [] => none

/-- Exactly `n` decimal digits. -/
def takeDigits (n : Nat) (cs : List Char) : Option (Int × List Char) :=
  takeDigitsAux n 0 cs

/-- One or two decimal digits (Go's non-fixed `getnum`). -/
def takeNum12 : List Char → Option (Int × List Char)
  | [] => none
  | [c] => (digitVal c).map (fun v => (v, []))
  | c :: d :: cs =>
    match digitVal c with
    | none => none
    | some v =>
      match digitVal d with
      | some w => some (v * 10 + w, cs)
      | none => some (v, d :: cs)

def expectChar (c : Char) : List Char → Option (List Char)
  | [] => none
  | d :: cs => if d = c then some cs else none

/-- Go `time.Parse` range validation for the y-m-d h:m components. -/
def validDT (t : DT) : Bool :=
  1 ≤ t.m && t.m ≤ 12 && 1 ≤ t.d && t.d ≤ daysInMonth t.y t.m &&
  0 ≤ t.hh && t.hh ≤ 23 && 0 ≤ t.mi && t.mi ≤ 59

/-- Finish a layout parse: the whole input must be consumed (Go rejects
    trailing text with an "extra text" error), then ranges are checked. -/
def finishDT (y m d hh mi : Int) (rest : List Char) : Option DT :=
  if rest.isEmpty then
    let t : DT := ⟨y, m, d, hh, mi⟩
    if validDT t then some t else none
  else none

def parseYMDPart (cs : List Char) : Option (Int × Int × Int × List Char) := do
  let (y, cs) ← takeDigits 4 cs
  let cs ← expectChar '-' cs
  let (m, cs) ← takeDigits 2 cs
  let cs ← expectChar '-' cs
  let (d, cs) ← takeDigits 2 cs
  pure (y, m, d, cs)

def parseMDYPart (cs : List Char) : Option (Int × Int × Int × List Char) := do
  let (m, cs) ← takeDigits 2 cs
  let cs ← expectChar '/' cs
  let (d, cs) ← takeDigits 2 cs
  let cs ← expectChar '/' cs
  let (y, cs) ← takeDigits 4 cs
  pure (y, m, d, cs)

def parseMDYShortPart (cs : List Char) : Option (Int × Int × Int × List Char) := do
  let (m, cs) ← takeNum12 cs
  let cs ← expectChar '/' cs
  let (d, cs) ← takeNum12 cs
  let cs ← expectChar '/' cs
  let (y, cs) ← takeDigits 4 cs
  pure (y, m, d, cs)

def parseHMPart (cs : List Char) : Option (Int × Int × List Char) := do
  let (hh, cs) ← takeNum12 cs
  let cs ← expectChar ':' cs
  let (mi, cs) ← takeDigits 2 cs
  pure (hh, mi, cs)

/-- Layout `"2006-01-02"`. -/
def parseLayoutYMD (s : String) : Option DT := do
  let (y, m, d, cs) ← parseYMDPart s.data
  finishDT y m d 0 0 cs

/-- Layout `"01/02/2006"`. -/
def parseLayoutMDY (s : String) : Option DT := do
  let (y, m, d, cs) ← parseMDYPart s.data
  finishDT y m d 0 0 cs

/-- Layout `"1/2/2006"`. -/
def parseLayoutMDYShort (s : String) : Option DT := do
  let (y, m, d, cs) ← parseMDYShortPart s.data
  finishDT y m d 0 0 cs

/-- Layout `"2006-01-02 15:04"`. -/
def parseLayoutYMDHM (s : String) : Option DT := do
  let (y, m, d, cs) ← parseYMDPart s.data
  let cs ← expectChar ' ' cs
  let (hh, mi, cs) ← parseHMPart cs
  finishDT y m d hh mi cs

/-- Layout `"01/02/2006 15:04"`. -/
def parseLayoutMDYHM (s : String) : Option DT := do
  let (y, m, d, cs) ← parseMDYPart s.data
  let cs ← expectChar ' ' cs
  let (hh, mi, cs) ← parseHMPart cs
  finishDT y m d hh mi cs

/-- `extractTimestamp` (journal.go): try the five layouts in order on the
    whole text; first success wins. -/
def extractTimestamp (s : String) : Option DT :=
  (parseLayoutYMD s).orElse fun _ =>
  (parseLayoutMDY s).orElse fun _ =>
  (parseLayoutMDYShort s).orElse fun _ =>
  (parseLayoutYMDHM s).orElse fun _ =>
  parseLayoutMDYHM s

/-- Left-pad a non-negative integer with zeros to the given width
    (Go `Format` for the `2006`/`01`/`02` layout atoms). -/
def pad (width : Nat) (n : Int) : String :=
  let s := toString n.toNat
  if s.length < width then String.mk (List.replicate (width - s.length) '0') ++ s else s

/-- `t.Format("2006-01-02")`. -/
def formatYMD (t : DT) : String := pad 4 t.y ++ "-" ++ pad 2 t.m ++ "-" ++ pad 2 t.d

/-- `t.Format("01/02/2006")`. -/
def formatMDY (t : DT) : String := pad 2 t.m ++ "/" ++ pad 2 t.d ++ "/" ++ pad 4 t.y

/-- `t.Format("15:04")`. -/
def formatHM (t : Int) : String :=
  let day := ((t % 1440) + 1440) % 1440
  pad 2 (day.tdiv 60) ++ ":" ++ pad 2 (day % 60)

/-- `parseDateSafely` (journal.go): parse `"2006-01-02"`, returning the zero
    time for the empty string or an invalid date. -/
def parseDateSafely (s : String) : Int :=
  if s = "" then zeroTime
  else
    match parseLayoutYMD s with
    | some t => instantOfDT t
    | none => zeroTime

/-! ### Data model (journal.go types) -/

structure Entry where
  id : String
  timestamp : Int
  content : String
  type : String
deriving DecidableEq, Repr

structure Task where
  id : String
  title : String
  type : String
  tags : List String
  status : String
  priority : String
  issueURL : String
  issueID : String
  created : Int
  updated : Int
  entries : List Entry
deriving DecidableEq, Repr

structure OneOnOne where
  date : String
  insights : List String
  todos : List String
  feedback : List String
  notes : String
  created : Int
deriving DecidableEq, Repr

structure ImportResult where
  tasksCreated : Nat
  entriesAdded : Nat
  warnings : List String
  summary : String
deriving DecidableEq, Repr

/-- Outcome of a tool call: `mcp.NewToolResultError` vs. a success payload. -/
inductive ToolResult (α : Type) where
  | err : String → ToolResult α
  | ok : α → ToolResult α
deriving DecidableEq, Repr

def ToolResult.isError {α : Type} : ToolResult α → Bool
  | .err _ => true
  | .ok _ => false

/-- `generateEntryID` derives the id from the current time (`UnixNano`); the
    model derives it from the modelled instant. -/
def generateEntryID (now : Int) : String := "entry_" ++ toString now

/-! ### Record store (one file per task keyed by id, modelled as a list) -/

def loadTask (store : List Task) (taskID : String) : Option Task :=
  store.find? (fun t => t.id = taskID)

/-- Overwrite-by-id (`saveTask` writes `tasks/<id>.json`). -/
def saveTask (store : List Task) (task : Task) : List Task :=
  if store.any (fun t => t.id = task.id) then
    store.map (fun t => if t.id = task.id then task else t)
  else store ++ [task]

/-! ### AddTaskEntry (journal.go lines 228-273)

The `timestamp` argument is parsed with `time.Parse(time.RFC3339, ·)` and used
only when parsing succeeds; the model takes that stdlib outcome as
`tsParsed : Option Int` (`none` = argument absent, empty, or not valid
RFC-3339).  The daily-log side file is outside the model. -/

def addTaskEntry (store : List Task) (taskID content : String) (tsParsed : Option Int)
    (now : Int) : ToolResult String × List Task :=
  match loadTask store taskID with
  | none => (ToolResult.err "Failed to load task", store)
  | some task =>
    let timestamp := match tsParsed with
      | some t => t
      | none => now
    let entry : Entry := ⟨generateEntryID now, timestamp, content, "log"⟩
    let task' := { task with entries := task.entries ++ [entry], updated := now }
    (ToolResult.ok ("Added entry to task " ++ taskID ++ " at " ++ formatHM timestamp),
     saveTask store task')

/-! ### UpdateTaskStatus (journal.go lines 411-469) -/

def validStatuses : List String := ["active", "completed", "paused", "blocked"]

def updateTaskStatus (store : List Task) (taskID status reason : String) (now : Int) :
    ToolResult String × List Task :=
  if !(validStatuses.contains status) then
    (ToolResult.err "Invalid status. Must be: active, completed, paused, blocked", store)
  else
    match loadTask store taskID with
    | none => (ToolResult.err "Failed to load task", store)
    | some task =>
      let content := "Status changed from " ++ task.status ++ " to " ++ status ++
        (if reason ≠ "" then ": " ++ reason else "")
      let entry : Entry := ⟨generateEntryID now, now, content, "status_change"⟩
      let task' := { task with
          status := status,
          updated := now,
          entries := task.entries ++ [entry] }
      (ToolResult.ok ("Updated task " ++ taskID ++ " status to " ++ status),
       saveTask store task')

/-! ### ListTasks: filter, sort, paginate (journal.go lines 337-409, 1268-1330) -/

/-- The optional arguments of a `ListTasks` call (`request.GetArguments()`);
    `none` = argument absent from the map. -/
structure ListArgs where
  status : Option String
  type : Option String
  tags : Option (List String)
  dateFrom : Option String
  dateTo : Option String
  limitStr : Option String
  offsetStr : Option String
deriving Repr

/-- One task's `include` flag in `filterTasks`. -/
def includeTask (filters : ListArgs) (task : Task) : Bool :=
  (match filters.status with
   | some s => task.status = s
   | none => true) &&
  (match filters.type with
   | some ty => task.type = ty
   | none => true) &&
  (match filters.tags with
   | some want => want.any (fun tag => task.tags.any (fun tt => tt = tag))
   | none => true) &&
  (match filters.dateFrom with
   | some s =>
     if s ≠ "" then
       let dateFrom := parseDateSafely s
       !(dateFrom ≠ zeroTime && task.updated < dateFrom)
     else true
   | none => true) &&
  (match filters.dateTo with
   | some s =>
     if s ≠ "" then
       let dateTo := parseDateSafely s
       !(dateTo ≠ zeroTime && dateTo + 1440 < task.updated)
     else true
   | none => true)

def filterTasks (tasks : List Task) (filters : ListArgs) : List Task :=
  tasks.filter (includeTask filters)

/-- `sort.Slice(filtered, func(i, j) { return filtered[i].Updated.After(filtered[j].Updated) })`:
    sort descending by `updated` (deterministic insertion sort; the Go sort is
    unstable, so ties have unspecified order there). -/
def insertByUpdated (t : Task) : List Task → List Task
  | [] => [t]
  | u :: rest =>
    if u.updated < t.updated then t :: u :: rest else u :: insertByUpdated t rest

def sortByUpdatedDesc (l : List Task) : List Task := l.foldr insertByUpdated []

/-- Effective `limit`: default 50, positive parsed values only, hard cap 200. -/
def effLimit : Option String → Nat
  | none => 50
  | some s =>
    if s = "" then 50
    else
      match atoi s with
      | some l => if 0 < l then (if 200 < l then 200 else l.toNat) else 50
      | none => 50

/-- Effective `offset`: default 0, non-negative parsed values only. -/
def effOffset : Option String → Nat
  | none => 0
  | some s =>
    if s = "" then 0
    else
      match atoi s with
      | some o => if 0 ≤ o then o.toNat else 0
      | none => 0

/-- The `startIndex`/`endIndex` slice of `ListTasks`. -/
def paginate (l : List Task) (offset limit : Nat) : List Task :=
  if l.length ≤ offset then []
  else (l.drop offset).take (min limit (l.length - offset))

/-- The result set of a `ListTasks` call (markdown rendering aside). -/
def listTasks (tasks : List Task) (args : ListArgs) : List Task :=
  paginate (sortByUpdatedDesc (filterTasks tasks args))
    (effOffset args.offsetStr) (effLimit args.limitStr)

/-! ### Import pipeline (journal.go lines 1102-1150, 1505-1562, 1760-1918)

The importers below also return the list of tasks they saved (modelling the
`js.saveTask` side effects; file writes always succeed in the model) together
with the warnings list. -/

/-- One line of `importFromPlainText`: the line is trimmed; blank lines are
    skipped; `extractTimestamp` is tried on the whole line; on success the
    `2006-01-02` and `01/02/2006` renderings of the parsed time are removed
    from the content, which is dropped when it ends up empty. -/
def plainTextEntry (now : Int) (rawLine : String) : Option Entry :=
  let line := trimSpace rawLine
  if line = "" then none
  else
    let tc : Int × String :=
      match extractTimestamp line with
      | some t =>
        let c := trimSpace (replaceFirst line (formatYMD t))
        (instantOfDT t, trimSpace (replaceFirst c (formatMDY t)))
      | none => (now, line)
    if tc.2 = "" then none
    else some ⟨generateEntryID now, tc.1, tc.2, "imported"⟩

def importFromPlainText (content pref defaultType : String) (now : Int) :
    ImportResult × List String × List Task :=
  let entries := (splitOnChar '\n' content).filterMap (plainTextEntry now)
  let task : Task :=
    ⟨pref ++ "-" ++ toString now, "Imported from plain text", defaultType, [],
     "active", "", "", "", now, now, entries⟩
  let tasksCreated := if entries.length > 0 then 1 else 0
  (⟨tasksCreated, entries.length, [],
    "Imported " ++ toString entries.length ++ " entries into " ++
      toString tasksCreated ++ " task(s) from plain text"⟩,
   [], if entries.length > 0 then [task] else [])

/-- `parseCSVLine`'s rune loop: double quotes toggle `inQuotes` (and are
    dropped), commas outside quotes separate fields. -/
def parseCSVChars : Bool → List Char → List (List Char)
  | _, [] => [[]]
  | inQ, c :: cs =>
    if c = '"' then parseCSVChars (!inQ) cs
    else if c = ',' && !inQ then [] :: parseCSVChars inQ cs
    else
      match parseCSVChars inQ cs with
      | f :: rest => (c :: f) :: rest
      | [] => [[c]]

def parseCSVLine (line : String) : List String :=
  (parseCSVChars false line.data).map (fun cs => ⟨cs⟩)

/-- `strings.TrimSpace(strings.Trim(s, "\""))`, the field/header cleanup. -/
def cleanField (s : String) : String := trimSpace (trimQuotes s)

/-- Header scan of `importFromCSV`: resolve (titleCol, dateCol, contentCol),
    `-1` when absent; a later matching column overwrites an earlier one. -/
def findCols (header : List String) : Int × Int × Int :=
  header.enum.foldl
    (fun acc ic =>
      let lc := lowerStr ic.2
      if lc = "title" || lc = "task" || lc = "name" then ((ic.1 : Int), acc.2.1, acc.2.2)
      else if lc = "date" || lc = "timestamp" || lc = "time" then (acc.1, (ic.1 : Int), acc.2.2)
      else if lc = "content" || lc = "description" || lc = "notes" || lc = "entry" then
        (acc.1, acc.2.1, (ic.1 : Int))
      else acc)
    (-1, -1, -1)

structure CSVAcc where
  warnings : List String
  taskMap : List (String × Task)
  entriesAdded : Nat
deriving Repr

def assocFind (m : List (String × Task)) (k : String) : Option Task :=
  (m.find? (fun p => p.1 = k)).map Prod.snd

def assocAppendEntry (m : List (String × Task)) (k : String) (e : Entry) :
    List (String × Task) :=
  m.map (fun p =>
    if p.1 = k then (p.1, { p.2 with entries := p.2.entries ++ [e] }) else p)

/-- One data row of `importFromCSV` (`lineNum` is the 0-based index into
    `lines[1:]`; the Go map is modelled as an insertion-ordered assoc list). -/
def csvRowStep (pref defaultType : String) (now : Int) (titleCol dateCol contentCol : Int)
    (acc : CSVAcc) (idxLine : Nat × String) : CSVAcc :=
  let line := idxLine.2
  if trimSpace line = "" then acc
  else
    let fields := parseCSVLine line
    if (fields.length : Int) ≤ max titleCol (max dateCol contentCol) then
      { acc with warnings := acc.warnings ++
          ["Row " ++ toString (idxLine.1 + 2) ++ " has insufficient columns"] }
    else
      let taskID :=
        if 0 ≤ titleCol && (titleCol : Int) < (fields.length : Int) &&
            (trimSpace (fields.getD titleCol.toNat "")) ≠ "" then
          pref ++ "-" ++ spacesToDashes (cleanField (fields.getD titleCol.toNat ""))
        else pref ++ "-" ++ toString now
      let taskMap :=
        if (assocFind acc.taskMap taskID).isSome then acc.taskMap
        else
          let title :=
            if 0 ≤ titleCol && (titleCol : Int) < (fields.length : Int) then
              cleanField (fields.getD titleCol.toNat "")
            else "Imported from CSV"
          acc.taskMap ++
            [(taskID, ⟨taskID, title, defaultType, [], "active", "", "", "", now, now, []⟩)]
      let timestamp :=
        if 0 ≤ dateCol && (dateCol : Int) < (fields.length : Int) then
          let dateStr := cleanField (fields.getD dateCol.toNat "")
          match parseLayoutYMD dateStr with
          | some t => instantOfDT t
          | none =>
            match parseLayoutMDY dateStr with
            | some t => instantOfDT t
            | none => now
        else now
      let rowContent := cleanField (fields.getD contentCol.toNat "")
      if rowContent ≠ "" then
        { warnings := acc.warnings,
          taskMap := assocAppendEntry taskMap taskID
            ⟨generateEntryID now, timestamp, rowContent, "imported"⟩,
          entriesAdded := acc.entriesAdded + 1 }
      else { acc with taskMap := taskMap }

def importFromCSV (content pref defaultType : String) (now : Int) :
    ImportResult × List String × List Task :=
  let lines := splitOnChar '\n' content
  if lines.length < 2 then
    (⟨0, 0, [], "Invalid CSV format"⟩,
     ["CSV must have at least header and one data row"], [])
  else
    let header := (splitOnChar ',' (lines.headD "")).map cleanField
    let cols := findCols header
    if cols.2.2 = -1 then
      (⟨0, 0, [], "Invalid CSV format - missing content column"⟩,
       ["Could not find content/description column"], [])
    else
      let acc := (lines.tail.enum).foldl
        (csvRowStep pref defaultType now cols.1 cols.2.1 cols.2.2) ⟨[], [], 0⟩
      let saved := (acc.taskMap.map Prod.snd).filter (fun t => t.entries.length > 0)
      (⟨saved.length, acc.entriesAdded, [],
        "Imported " ++ toString acc.entriesAdded ++ " entries into " ++
          toString saved.length ++ " task(s) from CSV"⟩,
       acc.warnings, saved)

def validImportTypes : List String := ["work", "learning", "personal", "investigation"]

/-- `ImportData` specialized to `format = "txt"` (the format string is valid,
    so only the content/default-type validations remain before dispatch);
    the success payload pairs the `ImportResult` (with the collected warnings,
    as `ImportData` sets `result.Warnings`) with the saved tasks. -/
def importDataTxt (content pref defaultType : String) (now : Int) :
    ToolResult (ImportResult × List Task) :=
  if trimSpace content = "" then ToolResult.err "content cannot be empty"
  else if !(validImportTypes.contains defaultType) then
    ToolResult.err "default_type must be one of: work, learning, personal, investigation"
  else
    let r := importFromPlainText content pref defaultType now
    ToolResult.ok ({ r.1 with warnings := r.2.1 }, r.2.2)

/-- `ImportData` specialized to `format = "csv"`. -/
def importDataCSV (content pref defaultType : String) (now : Int) :
    ToolResult (ImportResult × List Task) :=
  if trimSpace content = "" then ToolResult.err "content cannot be empty"
  else if !(validImportTypes.contains defaultType) then
    ToolResult.err "default_type must be one of: work, learning, personal, investigation"
  else
    let r := importFromCSV content pref defaultType now
    ToolResult.ok ({ r.1 with warnings := r.2.1 }, r.2.2)

/-! ### SearchEntries (journal.go lines 762-921) -/

structure SearchResult where
  taskID : String
  taskTitle : String
  entry : Entry
  context : String
deriving DecidableEq, Repr

/-- The inner entry loop of `SearchEntries` for one task: date-range filter,
    then a hit is recorded when the (lowered) title or entry content contains
    the query, tagged `both`/`entry`/`task`. -/
def entrySearchResults (queryL : String) (fromT toT : Int) (task : Task) :
    List SearchResult :=
  let taskMatches := strContains (lowerStr task.title) queryL
  task.entries.filterMap (fun e =>
    if fromT ≠ zeroTime && e.timestamp < fromT then none
    else if toT ≠ zeroTime && toT < e.timestamp then none
    else
      let entryMatches := strContains (lowerStr e.content) queryL
      if taskMatches || entryMatches then
        some ⟨task.id, task.title, e,
          if taskMatches && entryMatches then "both"
          else if entryMatches then "entry" else "task"⟩
      else none)

def oneOnOneSearchText (o : OneOnOne) : String :=
  lowerStr (o.notes ++ " " ++ joinWith " " o.insights ++ " " ++
    joinWith " " o.todos ++ " " ++ joinWith " " o.feedback)

/-- The one-on-one loop of `SearchEntries` (the meeting date is parsed with
    the error ignored, so an unparseable date behaves as the zero time). -/
def oneOnOneSearchResult (queryL : String) (fromT toT : Int) (o : OneOnOne) :
    Option SearchResult :=
  let meetingDate := parseDateSafely o.date
  if fromT ≠ zeroTime && meetingDate < fromT then none
  else if toT ≠ zeroTime && toT < meetingDate then none
  else if strContains (oneOnOneSearchText o) queryL then
    some ⟨"one-on-one", "One-on-One: " ++ o.date,
      ⟨"", meetingDate, o.notes, "one-on-one"⟩, "one-on-one"⟩
  else none

def insertByTimestamp (r : SearchResult) : List SearchResult → List SearchResult
  | [] => [r]
  | u :: rest =>
    if u.entry.timestamp < r.entry.timestamp then r :: u :: rest
    else u :: insertByTimestamp r rest

/-- The relevance ordering: results sorted by entry timestamp, descending
    (deterministic model of the unstable `sort.Slice`). -/
def sortByTimestampDesc (l : List SearchResult) : List SearchResult :=
  l.foldr insertByTimestamp []

/-- The result set of a `SearchEntries` call over the stored tasks and
    one-on-ones (markdown rendering and content truncation aside). -/
def searchEntries (tasks : List Task) (oneOnOnes : List OneOnOne)
    (query taskType dateFrom dateTo : String) : List SearchResult :=
  let queryL := lowerStr query
  let fromT := parseDateSafely dateFrom
  let toT0 := parseDateSafely dateTo
  let toT := if toT0 ≠ zeroTime then toT0 + 1440 else toT0
  let taskResults :=
    (tasks.filter (fun t => taskType = "" || t.type = taskType)).flatMap
      (entrySearchResults queryL fromT toT)
  let oneResults := oneOnOnes.filterMap (oneOnOneSearchResult queryL fromT toT)
  sortByTimestampDesc (taskResults ++ oneResults)

/-! ### Analytics engine (journal.go lines 2273-2434) -/

structure TaskMetrics where
  totalTasks : Nat
  byStatus : List (String × Nat)
  byType : List (String × Nat)
  byPriority : List (String × Nat)
  completionRate : ℚ
  averageEntries : ℚ
  totalEntries : Nat
deriving DecidableEq, Repr

/-- `m[k]++` on a Go counter map, modelled as an insertion-ordered assoc list. -/
def bumpCount (m : List (String × Nat)) (k : String) : List (String × Nat) :=
  if (m.find? (fun p => p.1 = k)).isSome then
    m.map (fun p => if p.1 = k then (p.1, p.2 + 1) else p)
  else m ++ [(k, 1)]

structure TMAcc where
  byStatus : List (String × Nat)
  byType : List (String × Nat)
  byPriority : List (String × Nat)
  totalEntries : Nat
  completed : Nat
deriving Repr

def tmStep (a : TMAcc) (task : Task) : TMAcc :=
  { byStatus := bumpCount a.byStatus task.status,
    byType := bumpCount a.byType task.type,
    byPriority := bumpCount a.byPriority (if task.priority = "" then "none" else task.priority),
    totalEntries := a.totalEntries + task.entries.length,
    completed := a.completed + (if task.status = "completed" then 1 else 0) }

/-- `calculateTaskMetrics`: the completed/total and entries/total divisions
    run only under the `len(tasks) > 0` guard (fields stay 0 otherwise). -/
def calculateTaskMetrics (tasks : List Task) : TaskMetrics :=
  let a := tasks.foldl tmStep ⟨[], [], [], 0, 0⟩
  { totalTasks := tasks.length,
    byStatus := a.byStatus,
    byType := a.byType,
    byPriority := a.byPriority,
    completionRate := if 0 < tasks.length then (a.completed : ℚ) / (tasks.length : ℚ) else 0,
    averageEntries := if 0 < tasks.length then (a.totalEntries : ℚ) / (tasks.length : ℚ) else 0,
    totalEntries := a.totalEntries }

structure ProductivityMetrics where
  tasksCompletedPeriod : Nat
  entriesAddedPeriod : Nat
  averageTaskDuration : ℚ
  mostProductiveType : String
  productivityScore : ℚ
deriving DecidableEq, Repr

/-- An instant counts as in-period when the period is `all` or it is after
    the period-start cutoff (`timePeriod == "all" || t.After(periodStart)`). -/
def inPeriod (timePeriod : String) (periodStart t : Int) : Bool :=
  timePeriod = "all" || periodStart < t

def bumpCountBy (m : List (String × Nat)) (k : String) (n : Nat) : List (String × Nat) :=
  if n = 0 then m
  else if (m.find? (fun p => p.1 = k)).isSome then
    m.map (fun p => if p.1 = k then (p.1, p.2 + n) else p)
  else m ++ [(k, n)]

structure PMAcc where
  entriesInPeriod : Nat
  typeEntries : List (String × Nat)
  completedPeriod : Nat
  totalDuration : ℚ
  durationCount : Nat
deriving Repr

/-- One task of the `calculateProductivityMetrics` loop: count the task's
    in-period entries (bumping `typeEntries[task.Type]` once per such entry),
    then track completed tasks and their positive durations in days. -/
def pmStep (timePeriod : String) (periodStart : Int) (a : PMAcc) (task : Task) : PMAcc :=
  let n := task.entries.countP (fun e => inPeriod timePeriod periodStart e.timestamp)
  let a1 : PMAcc := { a with
      entriesInPeriod := a.entriesInPeriod + n,
      typeEntries := bumpCountBy a.typeEntries task.type n }
  if task.status = "completed" then
    let completedPeriod :=
      if inPeriod timePeriod periodStart task.updated then a1.completedPeriod + 1
      else a1.completedPeriod
    let duration : ℚ := ((task.updated - task.created : Int) : ℚ) / 1440
    if 0 < duration then
      { a1 with
          completedPeriod := completedPeriod,
          totalDuration := a1.totalDuration + duration,
          durationCount := a1.durationCount + 1 }
    else { a1 with completedPeriod := completedPeriod }
  else a1

/-- The `maxEntries` scan (Go map iteration order is unspecified; the model
    iterates the counter map in insertion order; first strict maximum wins). -/
def maxTypeLoop (m : List (String × Nat)) : String :=
  (m.foldl (fun best p => if best.2 < p.2 then p else best) ("", 0)).1

/-- `calculateProductivityMetrics`, with `periodStart` standing for the
    cutoff the code derives from `time.Now()` via `AddDate` for the
    validated period names (it is unused when `timePeriod = "all"`).
    `float64` arithmetic is modelled over `ℚ`. -/
def calculateProductivityMetrics (tasks : List Task) (timePeriod : String)
    (periodStart : Int) : ProductivityMetrics :=
  let a := tasks.foldl (pmStep timePeriod periodStart) ⟨0, [], 0, 0, 0⟩
  { tasksCompletedPeriod := a.completedPeriod,
    entriesAddedPeriod := a.entriesInPeriod,
    averageTaskDuration :=
      if 0 < a.durationCount then a.totalDuration / (a.durationCount : ℚ) else 0,
    mostProductiveType := maxTypeLoop a.typeEntries,
    productivityScore :=
      if 0 < tasks.length then
        ((a.completedPeriod : ℚ) * 2 + (a.entriesInPeriod : ℚ) * (1 / 10)) / (tasks.length : ℚ)
      else 0 }

/-- Specification-level count of tasks completed in the period. -/
def tasksCompletedInPeriod (tasks : List Task) (timePeriod : String) (periodStart : Int) : Nat :=
  (tasks.filter (fun t => t.status = "completed" && inPeriod timePeriod periodStart t.updated)).length

/-- Specification-level count of entries added in the period. -/
def entriesAddedInPeriod (tasks : List Task) (timePeriod : String) (periodStart : Int) : Nat :=
  (tasks.map (fun t => t.entries.countP (fun e => inPeriod timePeriod periodStart e.timestamp))).sum

/-- `filterTasksByTimePeriod`, with `cutoff` standing for the `AddDate`
    result for the validated non-`all` period names. -/
def filterTasksByTimePeriod (tasks : List Task) (timePeriod : String) (cutoff : Int) :
    List Task :=
  if timePeriod = "all" then tasks
  else tasks.filter (fun t => cutoff < t.updated || cutoff < t.created)

def getTasksByType (tasks : List Task) (taskType : String) : List Task :=
  tasks.filter (fun t => t.type = taskType)

/-- The task set `GetAnalyticsReport` feeds to the metric calculators
    (period filter, then optional type filter). -/
def analyticsTaskSet (tasks : List Task) (timePeriod taskType : String) (cutoff : Int) :
    List Task :=
  let f := filterTasksByTimePeriod tasks timePeriod cutoff
  if taskType ≠ "" then getTasksByType f taskType else f

/-! ## Theorems -/

/-! ### Shared helper lemmas -/

theorem length_insertByUpdated (t : Task) (l : List Task) :
    (insertByUpdated t l).length = l.length + 1 := by
  induction l with
  | nil => rfl
  | cons u rest ih =>
    unfold insertByUpdated
    by_cases h : u.updated < t.updated
    · simp [h]
    · simp [h, ih]

theorem length_sortByUpdatedDesc (l : List Task) :
    (sortByUpdatedDesc l).length = l.length := by
  unfold sortByUpdatedDesc
  induction l with
  | nil => rfl
  | cons t rest ih => simp [List.foldr_cons, length_insertByUpdated, ih]

theorem parseDateSafely_invalid (s : String) (h : parseLayoutYMD s = none) :
    parseDateSafely s = zeroTime := by
  unfold parseDateSafely
  by_cases hs : s = ""
  · simp [hs]
  · simp [hs, h]

/-- `filterMap` of a guarded `some` is a filter followed by a map. -/
theorem filterMap_guard {α β : Type} (p : α → Bool) (g : α → β) (l : List α) :
    (l.filterMap fun a => if p a then some (g a) else none) = (l.filter p).map g := by
  induction l with
  | nil => rfl
  | cons a rest ih =>
    by_cases h : p a
    · simp [h, ih]
    · simp [h, ih]

/-! ### Claim theorems -/

def c1Now : Int := mkInstant 2025 10 11 12 0

/-- Claim C1 (code slip demonstrated): importing the three-line plain text via
    `ImportData` does create 1 task and 3 entries, but because `extractTimestamp`
    hands the whole line to `time.Parse` (which rejects trailing text), the
    embedded `2024-01-01`/`2024-01-02` tokens of the first and third lines are
    neither parsed into the entry timestamps (all three get "now") nor stripped
    from the contents, contrary to the documented scan-and-strip intent. -/
theorem importData_txt_embedded_dates_not_extracted :
    importDataTxt "2024-01-01 First entry\nSecond entry without date\n2024-01-02 Third entry"
        "IMPORT" "personal" c1Now =
      ToolResult.ok
        (⟨1, 3, [], "Imported 3 entries into 1 task(s) from plain text"⟩,
         [⟨"IMPORT-" ++ toString c1Now, "Imported from plain text", "personal", [],
           "active", "", "", "", c1Now, c1Now,
           [⟨generateEntryID c1Now, c1Now, "2024-01-01 First entry", "imported"⟩,
            ⟨generateEntryID c1Now, c1Now, "Second entry without date", "imported"⟩,
            ⟨generateEntryID c1Now, c1Now, "2024-01-02 Third entry", "imported"⟩]⟩]) := by
  rfl

/-- Claim C2 counterexample: a CSV import whose header has no
    content/description/notes/entry column does NOT produce an error result —
    it returns a normal (non-error) result carrying a warning, with nothing
    created. -/
theorem importData_csv_missing_column_not_error :
    (importDataCSV "a,b\n1,2" "IMPORT" "personal" 0).isError = false ∧
    importDataCSV "a,b\n1,2" "IMPORT" "personal" 0 =
      ToolResult.ok
        (⟨0, 0, ["Could not find content/description column"],
          "Invalid CSV format - missing content column"⟩, []) := by
  exact ⟨rfl, rfl⟩

/-- Claim C2 (amended): for a non-empty CSV payload with a valid default type,
    at least a header and one more line, and no content-role column in the
    header, the import aborts before creating anything — zero tasks, zero
    entries, no saved records — but is reported as a non-error result whose
    warnings list records the missing column. -/
theorem importData_csv_missing_column_aborts (content pref defaultType : String) (now : Int)
    (hne : trimSpace content ≠ "")
    (hty : validImportTypes.contains defaultType = true)
    (hlen : 2 ≤ (splitOnChar '\n' content).length)
    (hcol : (findCols ((splitOnChar ',' ((splitOnChar '\n' content).headD "")).map cleanField)).2.2 = -1) :
    importDataCSV content pref defaultType now =
      ToolResult.ok
        (⟨0, 0, ["Could not find content/description column"],
          "Invalid CSV format - missing content column"⟩, []) := by
  simp only [importDataCSV, importFromCSV]
  rw [if_neg hne]
  rw [if_neg (by rw [hty]; decide)]
  rw [if_neg (by omega)]
  rw [if_pos hcol]

/-- Witness for the amended C2 theorem at a concrete input. -/
theorem importData_csv_missing_column_aborts_witness :
    importDataCSV "a,b\n1,2\n3,4" "IMPORT" "work" 7 =
      ToolResult.ok
        (⟨0, 0, ["Could not find content/description column"],
          "Invalid CSV format - missing content column"⟩, []) := by
  exact importData_csv_missing_column_aborts "a,b\n1,2\n3,4" "IMPORT" "work" 7
    (by decide) (by decide) (by decide) (by decide)

/-- Claim C3: `UpdateTaskStatus` with a status outside
    {active, completed, paused, blocked} is rejected by the validation that
    runs before any load or save, so the store — hence every stored task
    record, its entries and its `updated` stamp — is unchanged. -/
theorem updateTaskStatus_invalid_status_rejected (store : List Task)
    (taskID status reason : String) (now : Int)
    (h : validStatuses.contains status = false) :
    updateTaskStatus store taskID status reason now =
      (ToolResult.err "Invalid status. Must be: active, completed, paused, blocked", store) := by
  unfold updateTaskStatus
  simp only [h, Bool.not_false]
  rfl

/-- Witness for the C3 theorem at a concrete store and status. -/
theorem updateTaskStatus_invalid_status_rejected_witness :
    updateTaskStatus
        [⟨"t1", "Task 1", "work", [], "active", "", "", "", 0, 0, []⟩]
        "t1" "cancelled" "" 5 =
      (ToolResult.err "Invalid status. Must be: active, completed, paused, blocked",
       [⟨"t1", "Task 1", "work", [], "active", "", "", "", 0, 0, []⟩]) := by
  exact updateTaskStatus_invalid_status_rejected _ "t1" "cancelled" "" 5 (by decide)

/-- Claim C5: `ListTasks` pagination — absent limit defaults to 50, a parsed
    limit above 200 is clamped to 200, absent offset defaults to 0, and an
    offset at or beyond the filtered count yields the empty page. -/
theorem listTasks_pagination_policy (tasks : List Task) (args : ListArgs)
    (s : String) (l : Int) (hs : atoi s = some l) (hl : 200 < l)
    (hoff : (filterTasks tasks args).length ≤ effOffset args.offsetStr) :
    effLimit none = 50 ∧ effLimit (some s) = 200 ∧ effOffset none = 0 ∧
    listTasks tasks args = [] := by
  refine ⟨rfl, ?_, rfl, ?_⟩
  · have hse : s ≠ "" := by
      intro he
      rw [he] at hs
      exact Option.noConfusion hs
    simp only [effLimit]
    rw [if_neg hse, hs]
    show (if 0 < l then (if 200 < l then 200 else l.toNat) else 50) = 200
    rw [if_pos (by omega), if_pos hl]
  · unfold listTasks paginate
    rw [length_sortByUpdatedDesc]
    rw [if_pos hoff]

/-- Witness for the C5 theorem at a concrete store and arguments. -/
theorem listTasks_pagination_policy_witness :
    effLimit none = 50 ∧ effLimit (some "500") = 200 ∧ effOffset none = 0 ∧
    listTasks [⟨"t1", "Task 1", "work", [], "active", "", "", "", 0, 0, []⟩]
      ⟨none, none, none, none, none, some "500", some "3"⟩ = [] := by
  exact listTasks_pagination_policy _ _ "500" 500 (by decide) (by decide) (by decide)

def c6Task (i : Nat) : Task :=
  ⟨"t" ++ toString i, "Task " ++ toString i, "work", [], "active", "", "", "",
   mkInstant 2025 1 (i : Int) 0 0, mkInstant 2025 1 (i : Int) 0 0, []⟩

/-- Claim C6: over the 5 tasks last updated 2025-01-01..05, `ListTasks` sorts
    descending by `updated` and the `limit=2, offset=2` page skips the two most
    recent, returning exactly the tasks updated on 2025-01-03 and 2025-01-02 —
    the 3rd and 2nd tasks of the creation sequence — in that order. -/
theorem listTasks_limit2_offset2_page :
    listTasks [c6Task 1, c6Task 2, c6Task 3, c6Task 4, c6Task 5]
        ⟨none, none, none, none, none, some "2", some "2"⟩ =
      [c6Task 3, c6Task 2] := by
  rfl

/-- Claim C8: `GetAnalyticsReport` over an empty task collection: the metric
    set it computes has `total_tasks = 0`, and both guarded divisions
    (completion rate, average entries per task) are 0 rather than evaluated
    with a zero denominator. -/
theorem analyticsReport_empty_collection_zeros (timePeriod taskType : String) (cutoff : Int) :
    (calculateTaskMetrics (analyticsTaskSet [] timePeriod taskType cutoff)).totalTasks = 0 ∧
    (calculateTaskMetrics (analyticsTaskSet [] timePeriod taskType cutoff)).completionRate = 0 ∧
    (calculateTaskMetrics (analyticsTaskSet [] timePeriod taskType cutoff)).averageEntries = 0 := by
  have hset : analyticsTaskSet [] timePeriod taskType cutoff = [] := by
    unfold analyticsTaskSet filterTasksByTimePeriod getTasksByType
    by_cases h1 : timePeriod = "all" <;> by_cases h2 : taskType ≠ "" <;> simp [h1, h2]
  rw [hset]
  exact ⟨rfl, rfl, rfl⟩

/-- Claim C10: `AddTaskEntry` on an existing task with a timestamp argument
    that does not parse as RFC-3339 (modelled by `none`) succeeds: the entry is
    appended with the current time as its timestamp, the malformed argument is
    ignored, and `updated` is bumped. -/
theorem addTaskEntry_malformed_timestamp_uses_now (store : List Task)
    (taskID content : String) (now : Int) (task : Task)
    (h : loadTask store taskID = some task) :
    addTaskEntry store taskID content none now =
      (ToolResult.ok ("Added entry to task " ++ taskID ++ " at " ++ formatHM now),
       saveTask store { task with
         entries := task.entries ++ [⟨generateEntryID now, now, content, "log"⟩],
         updated := now }) := by
  unfold addTaskEntry
  rw [h]

/-- Witness for the C10 theorem at a concrete store. -/
theorem addTaskEntry_malformed_timestamp_uses_now_witness :
    addTaskEntry [⟨"t1", "Task 1", "work", [], "active", "", "", "", 0, 0, []⟩]
        "t1" "hello" none 61 =
      (ToolResult.ok ("Added entry to task " ++ "t1" ++ " at " ++ formatHM 61),
       saveTask [⟨"t1", "Task 1", "work", [], "active", "", "", "", 0, 0, []⟩]
         { (⟨"t1", "Task 1", "work", [], "active", "", "", "", 0, 0, []⟩ : Task) with
           entries := [] ++ [⟨generateEntryID 61, 61, "hello", "log"⟩],
           updated := 61 }) := by
  exact addTaskEntry_malformed_timestamp_uses_now _ "t1" "hello" 61 _ (by rfl)

theorem includeTask_invalid_dateFrom (args : ListArgs) (s : String)
    (h : parseLayoutYMD s = none) (t : Task) :
    includeTask { args with dateFrom := some s } t =
      includeTask { args with dateFrom := none } t := by
  have hps := parseDateSafely_invalid s h
  unfold includeTask
  simp [hps]

theorem includeTask_invalid_dateTo (args : ListArgs) (s : String)
    (h : parseLayoutYMD s = none) (t : Task) :
    includeTask { args with dateTo := some s } t =
      includeTask { args with dateTo := none } t := by
  have hps := parseDateSafely_invalid s h
  unfold includeTask
  simp [hps]

/-- Claim C4: a syntactically invalid `date_from` (resp. `date_to`) string is
    silently ignored by `ListTasks`: the call returns exactly the same result
    set — same tasks, same order, same page — as the identical call without
    that date argument. -/
theorem listTasks_invalid_date_filter_ignored (tasks : List Task) (args : ListArgs)
    (s : String) (h : parseLayoutYMD s = none) :
    listTasks tasks { args with dateFrom := some s } =
      listTasks tasks { args with dateFrom := none } ∧
    listTasks tasks { args with dateTo := some s } =
      listTasks tasks { args with dateTo := none } := by
  constructor
  · have hf : filterTasks tasks { args with dateFrom := some s } =
        filterTasks tasks { args with dateFrom := none } := by
      unfold filterTasks
      exact List.filter_congr (fun t _ => includeTask_invalid_dateFrom args s h t)
    unfold listTasks
    rw [hf]
  · have hf : filterTasks tasks { args with dateTo := some s } =
        filterTasks tasks { args with dateTo := none } := by
      unfold filterTasks
      exact List.filter_congr (fun t _ => includeTask_invalid_dateTo args s h t)
    unfold listTasks
    rw [hf]

/-- Witness for the C4 theorem at a concrete store and invalid date string. -/
theorem listTasks_invalid_date_filter_ignored_witness :
    listTasks [⟨"t1", "Task 1", "work", [], "active", "", "", "", 0, 5, []⟩]
        ⟨none, none, none, some "not-a-date", none, none, none⟩ =
      listTasks [⟨"t1", "Task 1", "work", [], "active", "", "", "", 0, 5, []⟩]
        ⟨none, none, none, none, none, none, none⟩ ∧
    listTasks [⟨"t1", "Task 1", "work", [], "active", "", "", "", 0, 5, []⟩]
        ⟨none, none, none, none, some "not-a-date", none, none⟩ =
      listTasks [⟨"t1", "Task 1", "work", [], "active", "", "", "", 0, 5, []⟩]
        ⟨none, none, none, none, none, none, none⟩ :=
  listTasks_invalid_date_filter_ignored
    [⟨"t1", "Task 1", "work", [], "active", "", "", "", 0, 5, []⟩]
    ⟨none, none, none, none, none, none, none⟩ "not-a-date" (by rfl)

theorem pmStep_completedPeriod (tp : String) (ps : Int) (a : PMAcc) (task : Task) :
    (pmStep tp ps a task).completedPeriod =
      a.completedPeriod +
        (if task.status = "completed" && inPeriod tp ps task.updated then 1 else 0) := by
  simp only [pmStep]
  split_ifs <;> simp_all

theorem pmStep_entriesInPeriod (tp : String) (ps : Int) (a : PMAcc) (task : Task) :
    (pmStep tp ps a task).entriesInPeriod =
      a.entriesInPeriod + task.entries.countP (fun e => inPeriod tp ps e.timestamp) := by
  simp only [pmStep]
  split_ifs <;> rfl

theorem pmFold_completedPeriod (tp : String) (ps : Int) (tasks : List Task) (a : PMAcc) :
    (tasks.foldl (pmStep tp ps) a).completedPeriod =
      a.completedPeriod + tasksCompletedInPeriod tasks tp ps := by
  induction tasks generalizing a with
  | nil => simp [tasksCompletedInPeriod]
  | cons t ts ih =>
    rw [List.foldl_cons, ih, pmStep_completedPeriod]
    unfold tasksCompletedInPeriod
    rw [List.filter_cons]
    by_cases hp : (t.status = "completed" && inPeriod tp ps t.updated) = true
    · simp [hp]
      omega
    · simp [hp]

theorem pmFold_entriesInPeriod (tp : String) (ps : Int) (tasks : List Task) (a : PMAcc) :
    (tasks.foldl (pmStep tp ps) a).entriesInPeriod =
      a.entriesInPeriod + entriesAddedInPeriod tasks tp ps := by
  induction tasks generalizing a with
  | nil => simp [entriesAddedInPeriod]
  | cons t ts ih =>
    rw [List.foldl_cons, ih, pmStep_entriesInPeriod]
    unfold entriesAddedInPeriod
    rw [List.map_cons, List.sum_cons]
    omega

/-- Claim C7: for a non-empty task collection and any time period, the
    productivity score equals `(2 × completedInPeriod + 0.1 × entriesInPeriod)
    / totalTasks`, where both counts are taken against the period-start cutoff
    (`periodStart`, derived from the current time) — and the reported
    period counters are exactly those counts. -/
theorem productivity_score_formula (tasks : List Task) (tp : String) (ps : Int)
    (h : tasks ≠ []) :
    (calculateProductivityMetrics tasks tp ps).tasksCompletedPeriod =
        tasksCompletedInPeriod tasks tp ps ∧
    (calculateProductivityMetrics tasks tp ps).entriesAddedPeriod =
        entriesAddedInPeriod tasks tp ps ∧
    (calculateProductivityMetrics tasks tp ps).productivityScore =
      (2 * (tasksCompletedInPeriod tasks tp ps : ℚ) +
        (1 / 10) * (entriesAddedInPeriod tasks tp ps : ℚ)) / (tasks.length : ℚ) := by
  have hc := pmFold_completedPeriod tp ps tasks ⟨0, [], 0, 0, 0⟩
  have he := pmFold_entriesInPeriod tp ps tasks ⟨0, [], 0, 0, 0⟩
  have hlen : 0 < tasks.length := List.length_pos.mpr h
  unfold calculateProductivityMetrics
  refine ⟨by simpa using hc, by simpa using he, ?_⟩
  simp only []
  rw [if_pos hlen]
  rw [show (tasks.foldl (pmStep tp ps) ⟨0, [], 0, 0, 0⟩).completedPeriod =
        tasksCompletedInPeriod tasks tp ps by simpa using hc]
  rw [show (tasks.foldl (pmStep tp ps) ⟨0, [], 0, 0, 0⟩).entriesInPeriod =
        entriesAddedInPeriod tasks tp ps by simpa using he]
  ring_nf

/-- Witness for the C7 theorem at a concrete two-task collection. -/
theorem productivity_score_formula_witness :
    (calculateProductivityMetrics
        [⟨"a", "A", "work", [], "completed", "", "", "", 0, 5,
          [⟨"e1", 3, "x", "log"⟩]⟩,
         ⟨"b", "B", "work", [], "active", "", "", "", 0, 1, []⟩] "week" 0).tasksCompletedPeriod =
        tasksCompletedInPeriod
          [⟨"a", "A", "work", [], "completed", "", "", "", 0, 5,
            [⟨"e1", 3, "x", "log"⟩]⟩,
           ⟨"b", "B", "work", [], "active", "", "", "", 0, 1, []⟩] "week" 0 ∧
    (calculateProductivityMetrics
        [⟨"a", "A", "work", [], "completed", "", "", "", 0, 5,
          [⟨"e1", 3, "x", "log"⟩]⟩,
         ⟨"b", "B", "work", [], "active", "", "", "", 0, 1, []⟩] "week" 0).entriesAddedPeriod =
        entriesAddedInPeriod
          [⟨"a", "A", "work", [], "completed", "", "", "", 0, 5,
            [⟨"e1", 3, "x", "log"⟩]⟩,
           ⟨"b", "B", "work", [], "active", "", "", "", 0, 1, []⟩] "week" 0 ∧
    (calculateProductivityMetrics
        [⟨"a", "A", "work", [], "completed", "", "", "", 0, 5,
          [⟨"e1", 3, "x", "log"⟩]⟩,
         ⟨"b", "B", "work", [], "active", "", "", "", 0, 1, []⟩] "week" 0).productivityScore =
      (2 * (tasksCompletedInPeriod
              [⟨"a", "A", "work", [], "completed", "", "", "", 0, 5,
                [⟨"e1", 3, "x", "log"⟩]⟩,
               ⟨"b", "B", "work", [], "active", "", "", "", 0, 1, []⟩] "week" 0 : ℚ) +
        (1 / 10) * (entriesAddedInPeriod
              [⟨"a", "A", "work", [], "completed", "", "", "", 0, 5,
                [⟨"e1", 3, "x", "log"⟩]⟩,
               ⟨"b", "B", "work", [], "active", "", "", "", 0, 1, []⟩] "week" 0 : ℚ)) /
        (([⟨"a", "A", "work", [], "completed", "", "", "", 0, 5,
            [⟨"e1", 3, "x", "log"⟩]⟩,
           ⟨"b", "B", "work", [], "active", "", "", "", 0, 1, []⟩] : List Task).length : ℚ) :=
  productivity_score_formula _ "week" 0 (by simp)

theorem decide_zeroTime_ne_false : (decide (zeroTime ≠ zeroTime)) = false := by decide

/-- With no date filter and a title that does not contain the query, the
    per-task search results are exactly the matching entries, tagged
    `entry`. -/
theorem entrySearchResults_no_title (queryL : String) (task : Task)
    (h : strContains (lowerStr task.title) queryL = false) :
    entrySearchResults queryL zeroTime zeroTime task =
      (task.entries.filter (fun e => strContains (lowerStr e.content) queryL)).map
        (fun e => ⟨task.id, task.title, e, "entry"⟩) := by
  obtain ⟨tid, ttl, ty, tg, st, pr, iu, ii, cr, up, es⟩ := task
  simp only [entrySearchResults] at h ⊢
  induction es with
  | nil => rfl
  | cons e es ih =>
    rw [List.filterMap_cons, List.filter_cons]
    by_cases he : strContains (lowerStr e.content) queryL = true
    · simp [decide_zeroTime_ne_false, h, he] at ih ⊢
      exact ih
    · simp [decide_zeroTime_ne_false, h, (Bool.not_eq_true _).mp he] at ih ⊢
      exact ih

/-- Claim C9: when the query occurs (case-insensitively, as a substring) in
    the content of exactly one stored entry, in no task title and in no
    OneOnOne record, `SearchEntries` with no optional filters returns exactly
    one result, tagged `entry`. -/
theorem searchEntries_unique_entry_hit (tasks : List Task) (oneOnOnes : List OneOnOne)
    (query : String)
    (h1 : (tasks.map (fun t => t.entries.countP
            (fun e => strContains (lowerStr e.content) (lowerStr query)))).sum = 1)
    (h2 : ∀ t ∈ tasks, strContains (lowerStr t.title) (lowerStr query) = false)
    (h3 : ∀ o ∈ oneOnOnes, strContains (oneOnOneSearchText o) (lowerStr query) = false) :
    (searchEntries tasks oneOnOnes query "" "" "").map (fun r => r.context) = ["entry"] := by
  have hone : oneOnOnes.filterMap
      (oneOnOneSearchResult (lowerStr query) zeroTime zeroTime) = [] := by
    rw [List.filterMap_eq_nil_iff]
    intro o ho
    simp only [oneOnOneSearchResult]
    simp [decide_zeroTime_ne_false, h3 o ho]
  have hmem : ∀ r ∈ tasks.flatMap (entrySearchResults (lowerStr query) zeroTime zeroTime),
      r.context = "entry" := by
    intro r hr
    rw [List.mem_flatMap] at hr
    obtain ⟨t, ht, hrt⟩ := hr
    rw [entrySearchResults_no_title _ t (h2 t ht)] at hrt
    rw [List.mem_map] at hrt
    obtain ⟨e, _, rfl⟩ := hrt
    rfl
  have hlen : (tasks.flatMap (entrySearchResults (lowerStr query) zeroTime zeroTime)).length
      = 1 := by
    rw [List.length_flatMap]
    have hpt : ∀ t ∈ tasks,
        (List.length ∘ entrySearchResults (lowerStr query) zeroTime zeroTime) t =
          t.entries.countP (fun e => strContains (lowerStr e.content) (lowerStr query)) := by
      intro t ht
      simp only [Function.comp]
      rw [entrySearchResults_no_title _ t (h2 t ht), List.length_map,
        ← List.countP_eq_length_filter]
    rw [List.map_congr_left hpt]
    exact h1
  simp only [searchEntries]
  rw [show parseDateSafely "" = zeroTime from rfl]
  rw [show (if zeroTime ≠ zeroTime then zeroTime + 1440 else zeroTime) = zeroTime by simp]
  simp only [eq_self_iff_true, decide_True, Bool.true_or, List.filter_true]
  rw [hone, List.append_nil]
  obtain ⟨x, hx⟩ := List.length_eq_one.mp hlen
  have hctx : x.context = "entry" := hmem x (by rw [hx]; exact List.mem_singleton_self x)
  rw [hx]
  simp [sortByTimestampDesc, insertByTimestamp, hctx]

/-- Witness for the C9 theorem at a concrete store with one matching entry. -/
theorem searchEntries_unique_entry_hit_witness :
    (searchEntries
        [⟨"t1", "Alpha", "work", [], "active", "", "", "", 0, 5,
          [⟨"e1", 3, "Hello World", "log"⟩, ⟨"e2", 4, "nothing here", "log"⟩]⟩,
         ⟨"t2", "Beta", "work", [], "active", "", "", "", 0, 6,
          [⟨"e3", 2, "other text", "log"⟩]⟩]
        [⟨"2025-01-01", ["an insight"], [], [], "meeting notes", 0⟩]
        "world" "" "" "").map (fun r => r.context) = ["entry"] := by
  exact searchEntries_unique_entry_hit _ _ "world" (by decide) (by decide) (by decide)

end Journal
